import Mathlib

/-!
Verification of the geoWatch analysis worker.

This file gives a shallow embedding of the analysis worker of the
geoWatch backend (`analysis-worker/app/services/earth_engine.py`,
`analysis-worker/app/services/storage.py`, `analysis-worker/main.py`)
and proves properties of its change-detection pipeline.

Modelling conventions:
* Rasters ("Earth Engine images") are functions from an abstract pixel
  type `P` to `Option` values; `none` models a masked (invalid) pixel,
  mirroring Earth Engine mask propagation.
* All scalar numbers obtained from the remote Earth Engine service via
  `getInfo()` calls (pixel counts, hectare sums, geometry bounds) are
  inputs of the embedding, collected in the `EENumbers` record: the
  Python code treats them as opaque numbers returned by a remote oracle.
* Python floats are modelled as rationals (`ℚ`); the identities claimed
  by the spec are exact by construction in the source, so no rounding
  model is needed.
* Fallible Python code (raising exceptions) is modelled with
  `Except String`.
-/

set_option linter.unusedVariables false

namespace GeoWatch

/-- A polygon vertex, a `[lng, lat]` list as in the Python source. -/
abbrev Vertex : Type := List ℚ

/-- A geometry is the closed linear ring handed to `ee.Geometry.Polygon`. -/
abbrev Geometry : Type := List Vertex

/-- Embeds `_build_geometry` (earth_engine.py lines 40-49): reject an empty
vertex list, close the ring when the first vertex differs from the last. -/
def build_geometry (polygon : List Vertex) : Except String Geometry :=
  match polygon with
  | [] => Except.error "Polygon must contain coordinates"
  | v :: vs =>
    let ring := v :: vs
    if ring.getLast? = some v then Except.ok ring
    else Except.ok (ring ++ [v])

/-- A UTC calendar date, mirroring the `datetime` values used by
`_fetch_sentinel2_images`. -/
structure UtcDate where
  year : ℕ
  month : ℕ
  day : ℕ
deriving DecidableEq, Repr

/-- Gregorian leap-year rule used by `datetime`. -/
def isLeapYear (y : ℕ) : Bool :=
  y % 4 = 0 && (y % 100 ≠ 0 || y % 400 = 0)

/-- Number of days of a month, as `datetime` arithmetic uses. -/
def daysInMonth (y m : ℕ) : ℕ :=
  if m = 2 then (if isLeapYear y then 29 else 28)
  else if m = 4 ∨ m = 6 ∨ m = 9 ∨ m = 11 then 30
  else 31

/-- `d.replace(day=1)`. -/
def firstOfMonth (d : UtcDate) : UtcDate := { d with day := 1 }

/-- `d - timedelta(days=1)`. -/
def predDay (d : UtcDate) : UtcDate :=
  if 1 < d.day then { d with day := d.day - 1 }
  else if 1 < d.month then
    { year := d.year, month := d.month - 1, day := daysInMonth d.year (d.month - 1) }
  else { year := d.year - 1, month := 12, day := 31 }

/-- `now.strftime` with format `%Y-%m-%d`: zero-padded decimal fields. -/
def padNum (k n : ℕ) : String :=
  let s := toString n
  String.mk (List.replicate (k - s.length) '0') ++ s

/-- Render a date as `YYYY-MM-DD`, as `strftime` does in the source. -/
def formatDate (d : UtcDate) : String :=
  padNum 4 d.year ++ "-" ++ padNum 2 d.month ++ "-" ++ padNum 2 d.day

/-- The window computation of `_fetch_sentinel2_images`
(earth_engine.py lines 177-194): the current window is the entire
previous calendar month, the baseline window the month before that.
Returns `((baseline_start, baseline_end), (current_start, current_end))`. -/
def analysisWindows (now : UtcDate) : (UtcDate × UtcDate) × (UtcDate × UtcDate) :=
  let first_of_this_month := firstOfMonth now
  let last_of_prev_month := predDay first_of_this_month
  let first_of_prev_month := firstOfMonth last_of_prev_month
  let first_of_baseline_month := firstOfMonth (predDay first_of_prev_month)
  let last_of_baseline_month := predDay first_of_prev_month
  ((first_of_baseline_month, last_of_baseline_month),
   (first_of_prev_month, last_of_prev_month))

/-- Embeds `_create_monthly_composite` (earth_engine.py lines 105-154) at the
level the pipeline observes it: the number of Sentinel-2 scenes in a window is
an oracle value `collectionCount`; zero scenes yields no composite (`none`),
otherwise the composite is tagged with the window end date as its period. -/
def create_monthly_composite (collectionCount : UtcDate × UtcDate → ℕ)
    (start stop : UtcDate) : Option String :=
  if collectionCount (start, stop) = 0 then none
  else some (formatDate stop)

/-- Result of `_fetch_sentinel2_images`: geometry, the two windows, and the
two representative period strings (the composites themselves are opaque). -/
structure FetchOut where
  geometry : Geometry
  baselineWindow : UtcDate × UtcDate
  currentWindow : UtcDate × UtcDate
  baselineDate : String
  currentDate : String
deriving Repr

/-- Embeds `_fetch_sentinel2_images` (earth_engine.py lines 157-220).
The `classificationType` parameter is kept because the source function
declares it; the body never uses it (the caller in `main.py` actually passes
`payload.is_baseline` in that position, hence the generic type `α`). -/
def fetch_sentinel2_images {α : Type} (collectionCount : UtcDate × UtcDate → ℕ)
    (polygon : List Vertex) (classificationType : α) (now : UtcDate) :
    Except String FetchOut :=
  match build_geometry polygon with
  | Except.error e => Except.error e
  | Except.ok geometry =>
    let w := analysisWindows now
    let baseline_start := w.1.1
    let baseline_end := w.1.2
    let current_start := w.2.1
    let current_end := w.2.2
    match create_monthly_composite collectionCount current_start current_end with
    | none =>
      Except.error ("No Sentinel-2 data available for current period (" ++
        formatDate current_start ++ " to " ++ formatDate current_end ++ ")")
    | some current_date =>
      match create_monthly_composite collectionCount baseline_start baseline_end with
      | none =>
        Except.error ("No Sentinel-2 data available for baseline period (" ++
          formatDate baseline_start ++ " to " ++ formatDate baseline_end ++ ")")
      | some baseline_date =>
        Except.ok { geometry := geometry,
                    baselineWindow := (baseline_start, baseline_end),
                    currentWindow := (current_start, current_end),
                    baselineDate := baseline_date,
                    currentDate := current_date }

/-- A multi-band composite image over pixels `P`; each band maps a pixel to
`some` reflectance value or `none` when the pixel is masked. -/
structure Composite (P : Type) where
  b2 : P → Option ℚ
  b3 : P → Option ℚ
  b4 : P → Option ℚ
  b8 : P → Option ℚ
  b11 : P → Option ℚ

/-- A composite together with the NDVI and MNDWI index bands. -/
structure IndexedImage (P : Type) where
  ndvi : P → Option ℚ
  mndwi : P → Option ℚ

/-- `normalizedDifference` band math: `(x - y) / (x + y)`, masked pixels
propagate. -/
def normalizedDifference {P : Type} (x y : P → Option ℚ) : P → Option ℚ :=
  fun p =>
    match x p, y p with
    | some a, some b => some ((a - b) / (a + b))
    | _, _ => none

/-- Embeds `_add_indices` (earth_engine.py lines 223-231):
NDVI = (B8 - B4)/(B8 + B4), MNDWI = (B3 - B11)/(B3 + B11). -/
def add_indices {P : Type} (image : Composite P) : IndexedImage P :=
  { ndvi := normalizedDifference image.b8 image.b4,
    mndwi := normalizedDifference image.b3 image.b11 }

/-- `FOREST_NDVI_THRESHOLD = 0.35` (earth_engine.py line 16). -/
def FOREST_NDVI_THRESHOLD : ℚ := 35 / 100

/-- `WATER_MNDWI_THRESHOLD = 0.3` (earth_engine.py line 17). -/
def WATER_MNDWI_THRESHOLD : ℚ := 3 / 10

/-- Embeds `_create_classification_mask` (earth_engine.py lines 234-249):
forest thresholds NDVI, water thresholds MNDWI, anything else raises. -/
def create_classification_mask {P : Type} (image : IndexedImage P)
    (classificationType : String) : Except String (P → Option Bool) :=
  if classificationType = "forest" then
    Except.ok (fun p => (image.ndvi p).map (fun v => decide (v > FOREST_NDVI_THRESHOLD)))
  else if classificationType = "water" then
    Except.ok (fun p => (image.mndwi p).map (fun v => decide (v > WATER_MNDWI_THRESHOLD)))
  else
    Except.error ("Unsupported classification type: " ++ classificationType)

/-- Embeds `_calculate_cloud_coverage` (earth_engine.py lines 65-102) from the
point where the two `getInfo()` numbers are in hand: a missing or zero total
yields `0.0`, otherwise the ratio is clamped with `min(coverage, 100.0)`. -/
def calculate_cloud_coverage (total : Option ℕ) (cloudPixelCount : Option ℕ) : ℚ :=
  let clouds : ℕ := cloudPixelCount.getD 0
  match total with
  | none => 0
  | some t => if t = 0 then 0 else min ((clouds : ℚ) / (t : ℚ) * 100) 100

/-- The scalar numbers `compute_change_products` obtains from Earth Engine via
`reduceRegion(...).getInfo()` calls; each is an input of the embedding, as the
Python code receives them from the remote service. `none` models a `None`
return. -/
structure EENumbers where
  totalPixels : Option ℕ
  cloudFreePixels : Option ℕ
  classifiedPixels : Option ℕ
  lossSum : Option ℚ
  gainSum : Option ℚ
  stableSum : Option ℚ
  boundsCoords : List (ℚ × ℚ)

/-- `image.updateMask(m)`: a pixel survives only where the mask is set. -/
def updateMask {P : Type} (image : P → Option Bool) (m : P → Bool) : P → Option Bool :=
  fun p => if m p then image p else none

/-- `combined_mask` (earth_engine.py line 316): combined cloud-free mask of
both epochs ANDed with both classification masks being defined. -/
def combinedMaskOf {P : Type} (baselineClass currentClass : P → Option Bool)
    (baselineValid currentValid : P → Bool) : P → Bool :=
  fun p => (baselineValid p && currentValid p)
    && (baselineClass p).isSome && (currentClass p).isSome

/-- `loss = b.eq(1).And(c.eq(0))`: Earth Engine `eq`/`And` band math with
mask propagation (a masked operand masks the result). -/
def lossMaskOf {P : Type} (b c : P → Option Bool) : P → Option Bool :=
  fun p =>
    match b p, c p with
    | some x, some y => some (x && !y)
    | _, _ => none

/-- `gain = b.eq(0).And(c.eq(1))`. -/
def gainMaskOf {P : Type} (b c : P → Option Bool) : P → Option Bool :=
  fun p =>
    match b p, c p with
    | some x, some y => some (!x && y)
    | _, _ => none

/-- `stable = b.eq(1).And(c.eq(1))`. -/
def stableMaskOf {P : Type} (b c : P → Option Bool) : P → Option Bool :=
  fun p =>
    match b p, c p with
    | some x, some y => some (x && y)
    | _, _ => none

/-- The change-mask construction of `compute_change_products`
(earth_engine.py lines 289-341): restrict both classification masks to the
combined mask, then derive the loss/gain/stable partition. -/
def changeMasks {P : Type} (baselineClass currentClass : P → Option Bool)
    (baselineValid currentValid : P → Bool) :
    (P → Option Bool) × (P → Option Bool) × (P → Option Bool) :=
  let combined_mask := combinedMaskOf baselineClass currentClass baselineValid currentValid
  let baseline_class_masked := updateMask baselineClass combined_mask
  let current_class_masked := updateMask currentClass combined_mask
  (lossMaskOf baseline_class_masked current_class_masked,
   gainMaskOf baseline_class_masked current_class_masked,
   stableMaskOf baseline_class_masked current_class_masked)

/-- The metrics record of the callback payload (`AnalysisMetrics` in
`app/models.py`), with floats as rationals. -/
structure AnalysisMetrics where
  analysis_type : String
  baseline_date : String
  current_date : String
  baseline_cloud_coverage : ℚ
  current_cloud_coverage : ℚ
  valid_pixels_percentage : ℚ
  loss_hectares : ℚ
  gain_hectares : ℚ
  stable_hectares : ℚ
  total_hectares : ℚ
  loss_percentage : ℚ
  gain_percentage : ℚ
  net_change_percentage : ℚ
deriving DecidableEq, Repr

/-- `valid_pixels_percentage` (earth_engine.py lines 326-327): the classified
pixel count has no `or 0` guard, so a `None` with a positive total raises a
`TypeError` inside the division; a zero total short-circuits to `0.0`. -/
def validPixelsStage (nums : EENumbers) : Except String ℚ :=
  let total_px : ℕ := nums.totalPixels.getD 0
  if 0 < total_px then
    match nums.classifiedPixels with
    | some classified_px => Except.ok ((classified_px : ℚ) / (total_px : ℚ) * 100)
    | none => Except.error "TypeError: unsupported operand types for division"
  else Except.ok 0

/-- Bounding box `[west, south, east, north]` from the ring coordinates of
`geometry.bounds().getInfo()` (earth_engine.py lines 392-397); Python `min`
of an empty sequence raises. -/
def boundsFromCoords (coords : List (ℚ × ℚ)) : Except String (List ℚ) :=
  match coords with
  | [] => Except.error "min() arg is an empty sequence"
  | c :: cs =>
    Except.ok [(cs.map Prod.fst).foldl min c.1, (cs.map Prod.snd).foldl min c.2,
               (cs.map Prod.fst).foldl max c.1, (cs.map Prod.snd).foldl max c.2]

/-- The metric arithmetic of `compute_change_products`
(earth_engine.py lines 363-373 and 399-414): hectare sums come from the
`sum_hectares` oracle calls (`None` maps to `0.0`), the total is the sum of
the three partitions clamped below by `1e-6`, and the percentages divide by
the clamped total. Cloud coverages are reported as `0` for composites
(lines 276-278). -/
def metricsRecord (classificationType baselineDate currentDate : String)
    (validPixelsPercentage : ℚ) (nums : EENumbers) : AnalysisMetrics :=
  let loss_hectares := nums.lossSum.getD 0
  let gain_hectares := nums.gainSum.getD 0
  let stable_hectares := nums.stableSum.getD 0
  let total_raw := loss_hectares + gain_hectares + stable_hectares
  let total_hectares := if total_raw < 1 / 1000000 then 1 / 1000000 else total_raw
  let loss_percentage := loss_hectares / total_hectares * 100
  let gain_percentage := gain_hectares / total_hectares * 100
  let net_change_percentage := gain_percentage - loss_percentage
  { analysis_type := classificationType,
    baseline_date := baselineDate,
    current_date := currentDate,
    baseline_cloud_coverage := 0,
    current_cloud_coverage := 0,
    valid_pixels_percentage := validPixelsPercentage,
    loss_hectares := loss_hectares,
    gain_hectares := gain_hectares,
    stable_hectares := stable_hectares,
    total_hectares := total_hectares,
    loss_percentage := loss_percentage,
    gain_percentage := gain_percentage,
    net_change_percentage := net_change_percentage }

/-- The value `compute_change_products` returns: the metrics dict, the
change-mask images and the masked classification images kept for export, and
the bounding box. -/
structure ChangeOutput (P : Type) where
  metrics : AnalysisMetrics
  loss : P → Option Bool
  gain : P → Option Bool
  stable : P → Option Bool
  baselineComputed : P → Option Bool
  currentComputed : P → Option Bool
  bounds : List ℚ

/-- Assembles the success value of `compute_change_products` from the stage
results. -/
def changeOutputOf {P : Type} (baselineImage currentImage : Composite P)
    (classificationType baselineDate currentDate : String) (nums : EENumbers)
    (baselineClass currentClass : P → Option Bool) (validPixelsPercentage : ℚ)
    (bounds : List ℚ) : ChangeOutput P :=
  let baselineValid : P → Bool := fun p => (baselineImage.b2 p).isSome
  let currentValid : P → Bool := fun p => (currentImage.b2 p).isSome
  let combined_mask := combinedMaskOf baselineClass currentClass baselineValid currentValid
  let masks := changeMasks baselineClass currentClass baselineValid currentValid
  { metrics := metricsRecord classificationType baselineDate currentDate
      validPixelsPercentage nums,
    loss := masks.1,
    gain := masks.2.1,
    stable := masks.2.2,
    baselineComputed := updateMask baselineClass combined_mask,
    currentComputed := updateMask currentClass combined_mask,
    bounds := bounds }

/-- Embeds `compute_change_products` (earth_engine.py lines 252-424), staged
in source order: classification masks (can raise on an unsupported type),
the `valid_pixels_percentage` division (can raise a `TypeError`), the metric
arithmetic, and the bounding box (can raise on an empty ring). -/
def compute_change_products (P : Type) (baselineImage currentImage : Composite P)
    (classificationType baselineDate currentDate : String) (nums : EENumbers) :
    Except String (ChangeOutput P) :=
  match create_classification_mask (add_indices baselineImage) classificationType with
  | Except.error e => Except.error e
  | Except.ok baselineClass =>
    match create_classification_mask (add_indices currentImage) classificationType with
    | Except.error e => Except.error e
    | Except.ok currentClass =>
      let total_px : ℕ := nums.totalPixels.getD 0
      let cloud_free_px : ℕ := nums.cloudFreePixels.getD 0
      let _cloud_free_percentage : ℚ :=
        min (if 0 < total_px then (cloud_free_px : ℚ) / (total_px : ℚ) * 100 else 0) 100
      match validPixelsStage nums with
      | Except.error e => Except.error e
      | Except.ok valid_pixels_percentage =>
        match boundsFromCoords nums.boundsCoords with
        | Except.error e => Except.error e
        | Except.ok bounds =>
          Except.ok (changeOutputOf baselineImage currentImage classificationType
            baselineDate currentDate nums baselineClass currentClass
            valid_pixels_percentage bounds)

/-- Projection of a pipeline result onto its metrics record. -/
def metricsOf {P : Type} (r : Except String (ChangeOutput P)) : Option AnalysisMetrics :=
  r.toOption.map (fun out => out.metrics)

/-- State of an Earth Engine batch export task, as reported by
`task.status()['state']` (storage.py lines 56-66). `running` stands for any
non-terminal state. -/
inductive TaskState where
  | completed : TaskState
  | failed : String → TaskState
  | cancelled : TaskState
  | cancelRequested : TaskState
  | running : TaskState
deriving DecidableEq, Repr

/-- Observable events of the export coordinator: starting a task
(`task.start()`) and polling its status (`task.status()`), tagged with the
product key. -/
inductive ExpEvent where
  | submit : String → ExpEvent
  | poll : String → ExpEvent
deriving DecidableEq, Repr

/-- Poll budget of `_export_ee_image_to_gcs`: one status check every 5
seconds against a 300-second wall clock (storage.py lines 54-75). -/
def maxPollCount : ℕ := 62

/-- The polling loop of `_export_ee_image_to_gcs` (storage.py lines 54-75):
poll status `i`; stop on a terminal state, raise on failure or cancellation,
and raise a timeout once the wall-clock budget (modelled as the poll budget)
is exhausted. Returns the number of polls made and the outcome. -/
def pollLoop (taskState : ℕ → TaskState) (description : String) :
    ℕ → ℕ → ℕ × Except String Unit
  | 0, _ => (0, Except.error ("Export timed out after 300s for " ++ description))
  | fuel + 1, i =>
    match taskState i with
    | TaskState.completed => (1, Except.ok ())
    | TaskState.failed msg =>
      (1, Except.error ("EE export failed for " ++ description ++ ": " ++ msg))
    | TaskState.cancelled => (1, Except.error ("EE export cancelled for " ++ description))
    | TaskState.cancelRequested =>
      (1, Except.error ("EE export cancelled for " ++ description))
    | TaskState.running =>
      let rest := pollLoop taskState description fuel (i + 1)
      (rest.1 + 1, rest.2)

/-- Embeds `_export_ee_image_to_gcs` (storage.py lines 18-82) for one product
key: submit the task, poll it to a terminal state, and on success return the
public URL. Also returns the trace of submit/poll events. -/
def export_ee_image_to_gcs (taskState : ℕ → TaskState) (key : String)
    (bucketName blobPath description : String) :
    List ExpEvent × Except String String :=
  let poll_result := pollLoop taskState description maxPollCount 0
  let final_blob_path := if blobPath.endsWith ".tif" then blobPath else blobPath ++ ".tif"
  (ExpEvent.submit key :: List.replicate poll_result.1 (ExpEvent.poll key),
   poll_result.2.map (fun _ =>
     "https://storage.googleapis.com/" ++ bucketName ++ "/" ++ final_blob_path))

/-- The `paths` dict of `export_analysis_images_to_gcs` (storage.py lines
116-122), in insertion order. -/
def exportPaths (areaId analysisType baselineDate currentDate resultId : String) :
    List (String × String) :=
  [("baseline_image", areaId ++ "/images/" ++ baselineDate ++ "_sentinel.tif"),
   ("current_image", areaId ++ "/images/" ++ currentDate ++ "_sentinel.tif"),
   ("baseline_computed", areaId ++ "/computed/" ++ baselineDate ++ "_" ++ analysisType ++ ".tif"),
   ("current_computed", areaId ++ "/computed/" ++ currentDate ++ "_" ++ analysisType ++ ".tif"),
   ("difference_image", areaId ++ "/comparisons/" ++ resultId ++ "_diff.tif")]

/-- The export loop of `export_analysis_images_to_gcs` (storage.py lines
127-144): for each product key in order, export it to completion; the first
failure re-raises and aborts the remaining products. -/
def runExports (taskState : String → ℕ → TaskState) (resultId bucketName : String) :
    List (String × String) → List ExpEvent × Except String (List (String × String))
  | [] => ([], Except.ok [])
  | (key, blobPath) :: rest =>
    let one := export_ee_image_to_gcs (taskState key) key bucketName blobPath
      (resultId ++ "_" ++ key)
    match one.2 with
    | Except.error e => (one.1, Except.error e)
    | Except.ok url =>
      let more := runExports taskState resultId bucketName rest
      (one.1 ++ more.1, more.2.map (fun urls => (key, url) :: urls))

/-- Embeds `export_analysis_images_to_gcs` (storage.py lines 85-146):
derive the five blob paths and export each product in turn. -/
def export_analysis_images_to_gcs (taskState : String → ℕ → TaskState)
    (resultId areaId analysisType baselineDate currentDate bucketName : String) :
    List ExpEvent × Except String (List (String × String)) :=
  runExports taskState resultId bucketName
    (exportPaths areaId analysisType baselineDate currentDate resultId)

/-- The `/analyze` request body (`AnalysisPayload` in `app/models.py`). -/
structure AnalysisPayload where
  area_id : String
  result_id : String
  polygon : List Vertex
  type : String
  is_baseline : Bool

/-- The callback body (`CallbackPayload` in `app/models.py`); the image URL
dict is kept as an ordered key/URL list. -/
structure CallbackPayload where
  result_id : String
  status : String
  error_message : Option String
  image_urls : Option (List (String × String))
  metrics : Option AnalysisMetrics
  bounds : Option (List ℚ)

/-- Observable events of `run_the_full_analysis`: the pipeline stages and the
final callback send. -/
inductive RunEvent where
  | initEE : RunEvent
  | fetchImagery : RunEvent
  | computeChange : RunEvent
  | exportImages : RunEvent
  | sendCallback : CallbackPayload → RunEvent

/-- `True` exactly on callback-send events. -/
def isSendEvent : RunEvent → Bool
  | RunEvent.sendCallback _ => true
  | _ => false

/-- `True` exactly on imagery-fetch events. -/
def isFetchEvent : RunEvent → Bool
  | RunEvent.fetchImagery => true
  | _ => false

/-- Embeds `_polygon_to_lnglat` (main.py lines 35-45); after pydantic
validation every vertex is already a `[lng, lat]` list, so each point passes
through unchanged. -/
def polygon_to_lnglat (polygon : List Vertex) : List Vertex :=
  polygon.map (fun point => point)

/-- The external world one analysis job observes: whether Earth Engine
initialisation succeeds, the scene counts per window, the clock, the two
composites, the `getInfo` numbers, the export task states, and the bucket
name from the settings. -/
structure RunOracle (P : Type) where
  initOk : Bool
  collectionCount : UtcDate × UtcDate → ℕ
  now : UtcDate
  baselineImage : Composite P
  currentImage : Composite P
  nums : EENumbers
  taskState : String → ℕ → TaskState
  bucketName : String

/-- Embeds `run_the_full_analysis` (main.py lines 47-165): run the five
pipeline stages in order; any stage error falls through to the `except`
branch that builds a `failed` payload; the `finally` block sends the final
payload exactly once. Returns the event trace and the payload handed to
`callback_client.send_callback`. -/
def run_the_full_analysis (P : Type) (o : RunOracle P) (payload : AnalysisPayload) :
    List RunEvent × CallbackPayload :=
  -- final_payload starts with status "unknown" (main.py line 56)
  let core : List RunEvent × Except String (AnalysisMetrics × List (String × String) × List ℚ) :=
    if o.initOk = false then
      ([RunEvent.initEE], Except.error "Failed to initialise Earth Engine")
    else
      match fetch_sentinel2_images o.collectionCount (polygon_to_lnglat payload.polygon)
          payload.is_baseline o.now with
      | Except.error e => ([RunEvent.initEE, RunEvent.fetchImagery], Except.error e)
      | Except.ok fetched =>
        match compute_change_products P o.baselineImage o.currentImage payload.type
            fetched.baselineDate fetched.currentDate o.nums with
        | Except.error e =>
          ([RunEvent.initEE, RunEvent.fetchImagery, RunEvent.computeChange], Except.error e)
        | Except.ok out =>
          match (export_analysis_images_to_gcs o.taskState payload.result_id
              payload.area_id payload.type fetched.baselineDate fetched.currentDate
              o.bucketName).2 with
          | Except.error e =>
            ([RunEvent.initEE, RunEvent.fetchImagery, RunEvent.computeChange,
              RunEvent.exportImages], Except.error e)
          | Except.ok urls =>
            ([RunEvent.initEE, RunEvent.fetchImagery, RunEvent.computeChange,
              RunEvent.exportImages], Except.ok (out.metrics, urls, out.bounds))
  let final_payload : CallbackPayload :=
    match core.2 with
    | Except.ok success =>
      { result_id := payload.result_id, status := "completed", error_message := none,
        image_urls := some success.2.1, metrics := some success.1,
        bounds := some success.2.2 }
    | Except.error e =>
      { result_id := payload.result_id, status := "failed",
        error_message := some ("Analysis error: " ++ e),
        image_urls := none, metrics := none, bounds := none }
  (core.1 ++ [RunEvent.sendCallback final_payload], final_payload)

/-- `sub` occurs as a substring of `s`. -/
def containsStr (s sub : String) : Prop :=
  ∃ pre post : String, s = pre ++ sub ++ post

/-- A concrete single-pixel composite used by the concrete evaluations. -/
def unitComposite : Composite Unit :=
  ⟨fun _ => some 1, fun _ => some 2, fun _ => some 1, fun _ => some 3, fun _ => some 1⟩

/-- Oracle numbers with all hectare sums zero. -/
def numsAllZero : EENumbers :=
  ⟨some 0, some 0, some 0, some 0, some 0, some 0, [(0, 0), (1, 1)]⟩

/-- Oracle numbers with a below-epsilon but non-zero loss sum. -/
def numsTinyLoss : EENumbers :=
  ⟨some 0, some 0, some 0, some (1 / 2000000), some 0, some 0, [(0, 0), (1, 1)]⟩

/-- Oracle numbers whose classified-pixel count exceeds the total count. -/
def numsNoisy : EENumbers :=
  ⟨some 1, some 1, some 2, some 1, some 1, some 1, [(0, 0), (1, 1)]⟩

/-- Oracle numbers with ordinary positive hectare sums. -/
def numsRegular : EENumbers :=
  ⟨some 4, some 3, some 2, some 1, some 2, some 3, [(0, 0), (1, 1)]⟩

/-- Scanner over an export trace: every poll must be tagged with a key that
was already submitted. -/
def pollsAfterSubmits : List ExpEvent → List String → Bool
  | [], _ => true
  | ExpEvent.submit k :: rest, seen => pollsAfterSubmits rest (k :: seen)
  | ExpEvent.poll k :: rest, seen => seen.contains k && pollsAfterSubmits rest seen

/-- A concrete analysis request used by the concrete evaluations. -/
def cPayload : AnalysisPayload :=
  ⟨"area-1", "result-1", [[0, 0], [1, 0], [1, 1]], "forest", false⟩

/-- A concrete oracle whose Earth Engine initialisation fails. -/
def cFailOracle : RunOracle Unit :=
  ⟨false, fun _ => 1, ⟨2026, 10, 12⟩, unitComposite, unitComposite, numsRegular,
    fun _ _ => TaskState.completed, "bucket-1"⟩

/-- A concrete oracle with imagery in the current window (2026-09) but none
in the baseline window (2026-08). -/
def cNoBaselineOracle : RunOracle Unit :=
  ⟨true, fun w => if w = (analysisWindows ⟨2026, 10, 12⟩).1 then 0 else 5,
    ⟨2026, 10, 12⟩, unitComposite, unitComposite, numsRegular,
    fun _ _ => TaskState.completed, "bucket-1"⟩

/-! ## Helper lemmas -/

/-- Success inversion for `compute_change_products`: a successful run
determines the stage results and the output shape. -/
theorem compute_change_products_ok {P : Type}
    (baselineImage currentImage : Composite P)
    (classificationType baselineDate currentDate : String) (nums : EENumbers)
    (out : ChangeOutput P)
    (h : compute_change_products P baselineImage currentImage classificationType
      baselineDate currentDate nums = Except.ok out) :
    ∃ baselineClass currentClass validPixelsPercentage bounds,
      create_classification_mask (add_indices baselineImage) classificationType =
        Except.ok baselineClass ∧
      create_classification_mask (add_indices currentImage) classificationType =
        Except.ok currentClass ∧
      validPixelsStage nums = Except.ok validPixelsPercentage ∧
      boundsFromCoords nums.boundsCoords = Except.ok bounds ∧
      out = changeOutputOf baselineImage currentImage classificationType
        baselineDate currentDate nums baselineClass currentClass
        validPixelsPercentage bounds := by
  unfold compute_change_products at h
  cases h₁ : create_classification_mask (add_indices baselineImage) classificationType with
  | error e => rw [h₁] at h; simp at h
  | ok baselineClass =>
    rw [h₁] at h
    cases h₂ : create_classification_mask (add_indices currentImage) classificationType with
    | error e => rw [h₂] at h; simp at h
    | ok currentClass =>
      rw [h₂] at h
      cases h₃ : validPixelsStage nums with
      | error e => rw [h₃] at h; simp at h
      | ok validPixelsPercentage =>
        rw [h₃] at h
        cases h₄ : boundsFromCoords nums.boundsCoords with
        | error e => rw [h₄] at h; simp at h
        | ok bounds =>
          rw [h₄] at h
          simp at h
          exact ⟨baselineClass, currentClass, validPixelsPercentage, bounds,
            rfl, rfl, rfl, rfl, h.symm⟩

/-- The metrics of a `changeOutputOf` value are the `metricsRecord`. -/
theorem changeOutputOf_metrics {P : Type} (baselineImage currentImage : Composite P)
    (classificationType baselineDate currentDate : String) (nums : EENumbers)
    (baselineClass currentClass : P → Option Bool) (validPixelsPercentage : ℚ)
    (bounds : List ℚ) :
    (changeOutputOf baselineImage currentImage classificationType baselineDate
      currentDate nums baselineClass currentClass validPixelsPercentage
      bounds).metrics =
      metricsRecord classificationType baselineDate currentDate
        validPixelsPercentage nums := rfl

/-- Field equations of `metricsRecord`. -/
theorem metricsRecord_fields (classificationType baselineDate currentDate : String)
    (validPixelsPercentage : ℚ) (nums : EENumbers) :
    (metricsRecord classificationType baselineDate currentDate validPixelsPercentage
      nums).loss_hectares = nums.lossSum.getD 0 ∧
    (metricsRecord classificationType baselineDate currentDate validPixelsPercentage
      nums).gain_hectares = nums.gainSum.getD 0 ∧
    (metricsRecord classificationType baselineDate currentDate validPixelsPercentage
      nums).stable_hectares = nums.stableSum.getD 0 ∧
    (metricsRecord classificationType baselineDate currentDate validPixelsPercentage
      nums).total_hectares = (if nums.lossSum.getD 0 + nums.gainSum.getD 0 +
        nums.stableSum.getD 0 < 1 / 1000000 then (1 : ℚ) / 1000000
        else nums.lossSum.getD 0 + nums.gainSum.getD 0 + nums.stableSum.getD 0) ∧
    (metricsRecord classificationType baselineDate currentDate validPixelsPercentage
      nums).loss_percentage = (metricsRecord classificationType baselineDate
        currentDate validPixelsPercentage nums).loss_hectares /
        (metricsRecord classificationType baselineDate currentDate
          validPixelsPercentage nums).total_hectares * 100 ∧
    (metricsRecord classificationType baselineDate currentDate validPixelsPercentage
      nums).gain_percentage = (metricsRecord classificationType baselineDate
        currentDate validPixelsPercentage nums).gain_hectares /
        (metricsRecord classificationType baselineDate currentDate
          validPixelsPercentage nums).total_hectares * 100 ∧
    (metricsRecord classificationType baselineDate currentDate validPixelsPercentage
      nums).net_change_percentage = (metricsRecord classificationType baselineDate
        currentDate validPixelsPercentage nums).gain_percentage -
        (metricsRecord classificationType baselineDate currentDate
          validPixelsPercentage nums).loss_percentage ∧
    (metricsRecord classificationType baselineDate currentDate validPixelsPercentage
      nums).valid_pixels_percentage = validPixelsPercentage :=
  ⟨rfl, rfl, rfl, rfl, rfl, rfl, rfl, rfl⟩

/-- A successful metrics record of `compute_change_products` is a
`metricsRecord` over the `valid_pixels_percentage` stage result. -/
theorem compute_metrics_shape {P : Type} (baselineImage currentImage : Composite P)
    (classificationType baselineDate currentDate : String) (nums : EENumbers)
    (m : AnalysisMetrics)
    (h : metricsOf (compute_change_products P baselineImage currentImage
      classificationType baselineDate currentDate nums) = some m) :
    ∃ validPixelsPercentage, validPixelsStage nums = Except.ok validPixelsPercentage ∧
      m = metricsRecord classificationType baselineDate currentDate
        validPixelsPercentage nums := by
  obtain ⟨out, hout, hm⟩ : ∃ out, compute_change_products P baselineImage
      currentImage classificationType baselineDate currentDate nums =
        Except.ok out ∧ out.metrics = m := by
    cases hc : compute_change_products P baselineImage currentImage
        classificationType baselineDate currentDate nums with
    | error e => simp [metricsOf, hc, Except.toOption] at h
    | ok out =>
      simp [metricsOf, hc, Except.toOption] at h
      exact ⟨out, rfl, h⟩
  obtain ⟨bc, cc, vp, bds, _, _, hvp, _, rfl⟩ :=
    compute_change_products_ok baselineImage currentImage classificationType
      baselineDate currentDate nums out hout
  exact ⟨vp, hvp, by rw [← hm, changeOutputOf_metrics]⟩

/-! ## Claim theorems -/

/-- C1 as stated is false: when all three partition sums are zero the code
clamps `total_hectares` to `1e-6` (earth_engine.py lines 368-369), so the
reported total is `1e-6` while the three partition fields sum to `0`. -/
theorem C1_counterexample :
    (metricsOf (compute_change_products Unit unitComposite unitComposite "forest"
      "2026-08-31" "2026-09-30" numsAllZero)).map (fun m => m.total_hectares) =
        some (1 / 1000000) ∧
    (metricsOf (compute_change_products Unit unitComposite unitComposite "forest"
      "2026-08-31" "2026-09-30" numsAllZero)).map
        (fun m => m.loss_hectares + m.gain_hectares + m.stable_hectares) = some 0 ∧
    ((1 : ℚ) / 1000000 ≠ 0) := by
  refine ⟨?_, ?_, by norm_num⟩ <;>
    simp [metricsOf, compute_change_products, unitComposite, numsAllZero,
      create_classification_mask, validPixelsStage, boundsFromCoords,
      changeOutputOf, metricsRecord, Except.toOption]

/-- C1 amended: for every metrics record produced by `compute_change_products`,
`total_hectares` equals `loss_hectares + gain_hectares + stable_hectares`
whenever that sum is at least `1e-6`; when the sum is below `1e-6` the total
is clamped to exactly `1e-6`. -/
theorem C1_total_is_clamped_partition_sum {P : Type}
    (baselineImage currentImage : Composite P)
    (classificationType baselineDate currentDate : String) (nums : EENumbers)
    (m : AnalysisMetrics)
    (h : metricsOf (compute_change_products P baselineImage currentImage
      classificationType baselineDate currentDate nums) = some m) :
    ((1 : ℚ) / 1000000 ≤ m.loss_hectares + m.gain_hectares + m.stable_hectares →
      m.total_hectares = m.loss_hectares + m.gain_hectares + m.stable_hectares) ∧
    (m.loss_hectares + m.gain_hectares + m.stable_hectares < 1 / 1000000 →
      m.total_hectares = 1 / 1000000) := by
  obtain ⟨out, hout, rfl⟩ : ∃ out, compute_change_products P baselineImage
      currentImage classificationType baselineDate currentDate nums =
        Except.ok out ∧ out.metrics = m := by
    cases hc : compute_change_products P baselineImage currentImage
        classificationType baselineDate currentDate nums with
    | error e => simp [metricsOf, hc, Except.toOption] at h
    | ok out =>
      simp [metricsOf, hc, Except.toOption] at h
      exact ⟨out, rfl, h⟩
  obtain ⟨bc, cc, vp, bds, _, _, _, _, rfl⟩ :=
    compute_change_products_ok baselineImage currentImage classificationType
      baselineDate currentDate nums out hout
  rw [changeOutputOf_metrics]
  unfold metricsRecord
  dsimp only
  constructor
  · intro hge
    split
    · exact absurd hge (by push_neg; assumption)
    · rfl
  · intro hlt
    split
    · rfl
    · exact absurd hlt (by assumption)

/-- Witness for C1 at ordinary sums `1 + 2 + 3`: the total is the exact sum. -/
theorem C1_total_is_clamped_partition_sum_witness :
    (metricsRecord "forest" "2026-08-31" "2026-09-30" 50 numsRegular).total_hectares =
      (metricsRecord "forest" "2026-08-31" "2026-09-30" 50 numsRegular).loss_hectares +
      (metricsRecord "forest" "2026-08-31" "2026-09-30" 50 numsRegular).gain_hectares +
      (metricsRecord "forest" "2026-08-31" "2026-09-30" 50 numsRegular).stable_hectares :=
  (C1_total_is_clamped_partition_sum unitComposite unitComposite "forest"
    "2026-08-31" "2026-09-30" numsRegular
    (metricsRecord "forest" "2026-08-31" "2026-09-30" 50 numsRegular)
    (by simp [metricsOf, compute_change_products, unitComposite, numsRegular,
      create_classification_mask, validPixelsStage, boundsFromCoords,
      changeOutputOf, Except.toOption]
        norm_num [metricsRecord, numsRegular])).1
    (by norm_num [metricsRecord_fields, numsRegular])

/-- C4 as stated is false: a partition sum that is below the epsilon `1e-6`
but non-zero (here a loss of `5e-7` hectares) divides by the clamped
denominator and yields a non-zero `loss_percentage` of 50. -/
theorem C4_counterexample :
    (metricsOf (compute_change_products Unit unitComposite unitComposite "forest"
      "2026-08-31" "2026-09-30" numsTinyLoss)).map
        (fun m => m.loss_hectares + m.gain_hectares + m.stable_hectares) =
          some (1 / 2000000) ∧
    ((1 : ℚ) / 2000000 < 1 / 1000000) ∧
    (metricsOf (compute_change_products Unit unitComposite unitComposite "forest"
      "2026-08-31" "2026-09-30" numsTinyLoss)).map (fun m => m.loss_percentage) =
        some 50 ∧
    ((50 : ℚ) ≠ 0) := by
  refine ⟨?_, by norm_num, ?_, by norm_num⟩ <;>
    norm_num [metricsOf, compute_change_products, unitComposite, numsTinyLoss,
      create_classification_mask, validPixelsStage, boundsFromCoords,
      changeOutputOf, metricsRecord, Except.toOption]

/-- C4 amended: when all three partition hectare sums are zero, the loss,
gain and net-change percentages are all zero; and for every input the
percentage denominator `total_hectares` is at least the epsilon `1e-6`, so
the divisions are never degenerate. -/
theorem C4_no_degenerate_division {P : Type}
    (baselineImage currentImage : Composite P)
    (classificationType baselineDate currentDate : String) (nums : EENumbers)
    (m : AnalysisMetrics)
    (h : metricsOf (compute_change_products P baselineImage currentImage
      classificationType baselineDate currentDate nums) = some m) :
    ((m.loss_hectares = 0 ∧ m.gain_hectares = 0 ∧ m.stable_hectares = 0) →
      m.loss_percentage = 0 ∧ m.gain_percentage = 0 ∧
      m.net_change_percentage = 0) ∧
    (1 : ℚ) / 1000000 ≤ m.total_hectares := by
  obtain ⟨vp, hvp, rfl⟩ := compute_metrics_shape baselineImage currentImage
    classificationType baselineDate currentDate nums m h
  unfold metricsRecord
  dsimp only
  constructor
  · rintro ⟨hl, hg, hs⟩
    rw [hl, hg]
    simp
  · split
    · exact le_refl _
    · exact le_of_not_lt (by assumption)

/-- Witness for C4 at all-zero sums: every percentage is zero and the
denominator is the epsilon. -/
theorem C4_no_degenerate_division_witness :
    ((metricsRecord "forest" "2026-08-31" "2026-09-30" 0 numsAllZero).loss_percentage = 0 ∧
     (metricsRecord "forest" "2026-08-31" "2026-09-30" 0 numsAllZero).gain_percentage = 0 ∧
     (metricsRecord "forest" "2026-08-31" "2026-09-30" 0 numsAllZero).net_change_percentage = 0) ∧
    (1 : ℚ) / 1000000 ≤
      (metricsRecord "forest" "2026-08-31" "2026-09-30" 0 numsAllZero).total_hectares := by
  have h := C4_no_degenerate_division unitComposite unitComposite "forest"
    "2026-08-31" "2026-09-30" numsAllZero
    (metricsRecord "forest" "2026-08-31" "2026-09-30" 0 numsAllZero)
    (by simp [metricsOf, compute_change_products, unitComposite, numsAllZero,
      create_classification_mask, validPixelsStage, boundsFromCoords,
      changeOutputOf, Except.toOption])
  exact ⟨h.1 ⟨rfl, rfl, rfl⟩, h.2⟩

/-- C5 as stated is false for `valid_pixels_percentage`: the code does not
clamp it (earth_engine.py line 327), so a classified-pixel count of 2 against
a total of 1 reports 200 percent. -/
theorem C5_counterexample :
    (metricsOf (compute_change_products Unit unitComposite unitComposite "forest"
      "2026-08-31" "2026-09-30" numsNoisy)).map
        (fun m => m.valid_pixels_percentage) = some 200 ∧
    ¬ ((200 : ℚ) ≤ 100) := by
  refine ⟨?_, by norm_num⟩
  norm_num [metricsOf, compute_change_products, unitComposite, numsNoisy,
    create_classification_mask, validPixelsStage, boundsFromCoords,
    changeOutputOf, metricsRecord, Except.toOption]

/-- C5 amended: the masker's cloud coverage is always in `[0, 100]` and is
`0` when the total count is missing or zero; `valid_pixels_percentage` is `0`
when the total count is zero and lies in `[0, 100]` whenever the oracle's
classified count does not exceed its total count — but it is not clamped, so
it can exceed 100 under inconsistent (noisy) counts. -/
theorem C5_percentages_in_range :
    (∀ total cloudPixelCount : Option ℕ,
      0 ≤ calculate_cloud_coverage total cloudPixelCount ∧
      calculate_cloud_coverage total cloudPixelCount ≤ 100 ∧
      (total.getD 0 = 0 → calculate_cloud_coverage total cloudPixelCount = 0)) ∧
    (∀ (P : Type) (baselineImage currentImage : Composite P)
      (classificationType baselineDate currentDate : String) (nums : EENumbers)
      (m : AnalysisMetrics),
      metricsOf (compute_change_products P baselineImage currentImage
        classificationType baselineDate currentDate nums) = some m →
      (nums.totalPixels.getD 0 = 0 → m.valid_pixels_percentage = 0) ∧
      (∀ c t : ℕ, nums.classifiedPixels = some c → nums.totalPixels = some t →
        c ≤ t → 0 ≤ m.valid_pixels_percentage ∧ m.valid_pixels_percentage ≤ 100)) := by
  constructor
  · intro total cloudPixelCount
    unfold calculate_cloud_coverage
    cases total with
    | none => exact ⟨le_refl 0, by norm_num, fun _ => rfl⟩
    | some t =>
      dsimp only [Option.getD]
      by_cases ht : t = 0
      · simp [ht]
      · rw [if_neg ht]
        refine ⟨le_min (by positivity) (by norm_num), min_le_right _ _, ?_⟩
        intro h0
        exact absurd h0 ht
  · intro P baselineImage currentImage classificationType baselineDate
      currentDate nums m h
    obtain ⟨vp, hvp, rfl⟩ := compute_metrics_shape baselineImage currentImage
      classificationType baselineDate currentDate nums m h
    have hfield : (metricsRecord classificationType baselineDate currentDate vp
      nums).valid_pixels_percentage = vp := rfl
    constructor
    · intro h0
      rw [hfield]
      unfold validPixelsStage at hvp
      rw [h0] at hvp
      simp at hvp
      exact hvp.symm
    · intro c t hc ht hle
      rw [hfield]
      unfold validPixelsStage at hvp
      rw [hc, ht] at hvp
      dsimp only [Option.getD] at hvp
      by_cases ht0 : 0 < t
      · rw [if_pos ht0] at hvp
        simp at hvp
        subst hvp
        constructor
        · positivity
        · have hdiv : (c : ℚ) / (t : ℚ) ≤ 1 := by
            rw [div_le_one (by exact_mod_cast ht0)]
            exact_mod_cast hle
          calc (c : ℚ) / (t : ℚ) * 100 ≤ 1 * 100 := by
                exact mul_le_mul_of_nonneg_right hdiv (by norm_num)
            _ = 100 := by norm_num
      · rw [if_neg ht0] at hvp
        simp at hvp
        subst hvp
        norm_num

/-- Witness for C5: concrete clamped coverage `min(500, 100) = 100` and a
consistent count pair `2 ≤ 4` giving a 50-percent valid-pixel share. -/
theorem C5_percentages_in_range_witness :
    (0 ≤ calculate_cloud_coverage (some 1) (some 5) ∧
      calculate_cloud_coverage (some 1) (some 5) ≤ 100) ∧
    (0 ≤ (metricsRecord "forest" "2026-08-31" "2026-09-30" 50 numsRegular).valid_pixels_percentage ∧
      (metricsRecord "forest" "2026-08-31" "2026-09-30" 50 numsRegular).valid_pixels_percentage ≤ 100) := by
  constructor
  · exact ⟨(C5_percentages_in_range.1 (some 1) (some 5)).1,
      (C5_percentages_in_range.1 (some 1) (some 5)).2.1⟩
  · exact (C5_percentages_in_range.2 Unit unitComposite unitComposite "forest"
      "2026-08-31" "2026-09-30" numsRegular
      (metricsRecord "forest" "2026-08-31" "2026-09-30" 50 numsRegular)
      (by norm_num [metricsOf, compute_change_products, unitComposite, numsRegular,
        create_classification_mask, validPixelsStage, boundsFromCoords,
        changeOutputOf, metricsRecord, Except.toOption])).2
      2 4 rfl rfl (by norm_num)

/-- C6: the loss/gain/stable change masks built by `compute_change_products`
are pairwise disjoint at every pixel, every set pixel lies inside the
combined-validity footprint of both epochs, and a pixel invalid in either
epoch is masked (hence false) in all three. -/
theorem C6_change_masks_disjoint (P : Type)
    (baselineClass currentClass : P → Option Bool)
    (baselineValid currentValid : P → Bool) (p : P) :
    (¬ ((changeMasks baselineClass currentClass baselineValid currentValid).1 p = some true ∧
        (changeMasks baselineClass currentClass baselineValid currentValid).2.1 p = some true)) ∧
    (¬ ((changeMasks baselineClass currentClass baselineValid currentValid).1 p = some true ∧
        (changeMasks baselineClass currentClass baselineValid currentValid).2.2 p = some true)) ∧
    (¬ ((changeMasks baselineClass currentClass baselineValid currentValid).2.1 p = some true ∧
        (changeMasks baselineClass currentClass baselineValid currentValid).2.2 p = some true)) ∧
    ((changeMasks baselineClass currentClass baselineValid currentValid).1 p = some true →
      baselineValid p = true ∧ currentValid p = true) ∧
    ((changeMasks baselineClass currentClass baselineValid currentValid).2.1 p = some true →
      baselineValid p = true ∧ currentValid p = true) ∧
    ((changeMasks baselineClass currentClass baselineValid currentValid).2.2 p = some true →
      baselineValid p = true ∧ currentValid p = true) ∧
    (baselineValid p = false ∨ currentValid p = false →
      (changeMasks baselineClass currentClass baselineValid currentValid).1 p = none ∧
      (changeMasks baselineClass currentClass baselineValid currentValid).2.1 p = none ∧
      (changeMasks baselineClass currentClass baselineValid currentValid).2.2 p = none) := by
  have key : ∀ (b c : Option Bool) (vb vc : Bool),
      (¬ ((changeMasks (fun _ : Unit => b) (fun _ => c) (fun _ => vb) (fun _ => vc)).1 () = some true ∧
          (changeMasks (fun _ : Unit => b) (fun _ => c) (fun _ => vb) (fun _ => vc)).2.1 () = some true)) ∧
      (¬ ((changeMasks (fun _ : Unit => b) (fun _ => c) (fun _ => vb) (fun _ => vc)).1 () = some true ∧
          (changeMasks (fun _ : Unit => b) (fun _ => c) (fun _ => vb) (fun _ => vc)).2.2 () = some true)) ∧
      (¬ ((changeMasks (fun _ : Unit => b) (fun _ => c) (fun _ => vb) (fun _ => vc)).2.1 () = some true ∧
          (changeMasks (fun _ : Unit => b) (fun _ => c) (fun _ => vb) (fun _ => vc)).2.2 () = some true)) ∧
      ((changeMasks (fun _ : Unit => b) (fun _ => c) (fun _ => vb) (fun _ => vc)).1 () = some true →
        vb = true ∧ vc = true) ∧
      ((changeMasks (fun _ : Unit => b) (fun _ => c) (fun _ => vb) (fun _ => vc)).2.1 () = some true →
        vb = true ∧ vc = true) ∧
      ((changeMasks (fun _ : Unit => b) (fun _ => c) (fun _ => vb) (fun _ => vc)).2.2 () = some true →
        vb = true ∧ vc = true) ∧
      (vb = false ∨ vc = false →
        (changeMasks (fun _ : Unit => b) (fun _ => c) (fun _ => vb) (fun _ => vc)).1 () = none ∧
        (changeMasks (fun _ : Unit => b) (fun _ => c) (fun _ => vb) (fun _ => vc)).2.1 () = none ∧
        (changeMasks (fun _ : Unit => b) (fun _ => c) (fun _ => vb) (fun _ => vc)).2.2 () = none) := by
    decide
  exact key (baselineClass p) (currentClass p) (baselineValid p) (currentValid p)

/-- Witness for C6 at a one-pixel raster classified in both epochs: the
stable mask is set, which forces validity of both epochs. -/
theorem C6_change_masks_disjoint_witness :
    (fun _ : Unit => true) () = true ∧ (fun _ : Unit => true) () = true :=
  (C6_change_masks_disjoint Unit (fun _ => some true) (fun _ => some true)
    (fun _ => true) (fun _ => true) ()).2.2.2.2.2.1 rfl

/-- A middle segment of a five-part concatenation is a substring. -/
theorem containsStr_seg2 (a b c d e : String) : containsStr (a ++ b ++ c ++ d ++ e) b :=
  ⟨a, c ++ d ++ e, by simp [String.append_assoc]⟩

/-- The fourth segment of a five-part concatenation is a substring. -/
theorem containsStr_seg4 (a b c d e : String) : containsStr (a ++ b ++ c ++ d ++ e) d :=
  ⟨a ++ b ++ c, e, by simp [String.append_assoc]⟩

/-- Substring containment survives prepending. -/
theorem containsStr_prepend (t s sub : String) (h : containsStr s sub) :
    containsStr (t ++ s) sub := by
  obtain ⟨pre, post, hs⟩ := h
  exact ⟨t ++ pre, post, by rw [hs]; simp [String.append_assoc]⟩

/-- A non-empty polygon always yields a geometry. -/
theorem build_geometry_ne_nil (polygon : List Vertex) (h : polygon ≠ []) :
    ∃ g, build_geometry polygon = Except.ok g := by
  cases polygon with
  | nil => exact absurd rfl h
  | cons v vs =>
    by_cases hl : (v :: vs).getLast? = some v
    · exact ⟨v :: vs, by simp [build_geometry, hl]⟩
    · exact ⟨v :: vs ++ [v], by simp [build_geometry, hl]⟩

/-- `_polygon_to_lnglat` is the identity on pydantic-validated vertex lists. -/
theorem polygon_to_lnglat_id (polygon : List Vertex) :
    polygon_to_lnglat polygon = polygon :=
  List.map_id polygon

/-- If the current window has imagery but the baseline window has none, the
fetch stage raises the baseline error message, which embeds both baseline
window dates. -/
theorem fetch_no_baseline_imagery {α : Type} (collectionCount : UtcDate × UtcDate → ℕ)
    (polygon : List Vertex) (classificationType : α) (now : UtcDate)
    (hpoly : polygon ≠ [])
    (hcur : collectionCount (analysisWindows now).2 ≠ 0)
    (hbase : collectionCount (analysisWindows now).1 = 0) :
    fetch_sentinel2_images collectionCount polygon classificationType now =
      Except.error ("No Sentinel-2 data available for baseline period (" ++
        formatDate (analysisWindows now).1.1 ++ " to " ++
        formatDate (analysisWindows now).1.2 ++ ")") := by
  obtain ⟨g, hg⟩ := build_geometry_ne_nil polygon hpoly
  unfold fetch_sentinel2_images
  rw [hg]
  dsimp only
  unfold create_monthly_composite
  rw [if_neg hcur, if_pos hbase]

/-- A failing fetch stage drives the run to a `failed` callback payload,
with the fetch invoked once and the callback sent once. -/
theorem run_fetch_error {P : Type} (o : RunOracle P) (payload : AnalysisPayload)
    (hinit : o.initOk = true) (e : String)
    (hf : fetch_sentinel2_images o.collectionCount (polygon_to_lnglat payload.polygon)
      payload.is_baseline o.now = Except.error e) :
    run_the_full_analysis P o payload =
      ([RunEvent.initEE, RunEvent.fetchImagery, RunEvent.sendCallback
          ⟨payload.result_id, "failed", some ("Analysis error: " ++ e), none, none, none⟩],
        ⟨payload.result_id, "failed", some ("Analysis error: " ++ e), none, none, none⟩) := by
  unfold run_the_full_analysis
  rw [hinit, hf]
  rfl

/-- Polls of an already-submitted key pass the scanner. -/
theorem pollsAfterSubmits_replicate (k : String) (n : ℕ) (rest : List ExpEvent)
    (seen : List String) (hk : seen.contains k = true) :
    pollsAfterSubmits (List.replicate n (ExpEvent.poll k) ++ rest) seen =
      pollsAfterSubmits rest seen := by
  induction n with
  | zero => rfl
  | succ n ih =>
    rw [List.replicate_succ, List.cons_append]
    show (seen.contains k &&
      pollsAfterSubmits (List.replicate n (ExpEvent.poll k) ++ rest) seen) =
        pollsAfterSubmits rest seen
    rw [hk, Bool.true_and, ih]

/-- The trace of a single export is its submission followed by its polls. -/
theorem export_ee_image_trace (taskState : ℕ → TaskState) (key : String)
    (bucketName blobPath description : String) :
    (export_ee_image_to_gcs taskState key bucketName blobPath description).1 =
      ExpEvent.submit key ::
        List.replicate (pollLoop taskState description maxPollCount 0).1
          (ExpEvent.poll key) := rfl

/-- The polling loop with positive fuel always polls at least once: the
status is checked before any terminal-state or timeout decision. -/
theorem pollLoop_pos (taskState : ℕ → TaskState) (description : String)
    (fuel i : ℕ) (h : 0 < fuel) :
    1 ≤ (pollLoop taskState description fuel i).1 := by
  cases fuel with
  | zero => exact absurd h (by norm_num)
  | succ f =>
    unfold pollLoop
    cases taskState i <;> simp

/-- The export loop satisfies the scanner for any initial seen set. -/
theorem runExports_pollsAfterSubmits (taskState : String → ℕ → TaskState)
    (resultId bucketName : String) (items : List (String × String))
    (seen : List String) :
    pollsAfterSubmits (runExports taskState resultId bucketName items).1 seen = true := by
  induction items generalizing seen with
  | nil => rfl
  | cons kv rest ih =>
    obtain ⟨k, path⟩ := kv
    unfold runExports
    dsimp only
    cases hr : (export_ee_image_to_gcs (taskState k) k bucketName path
        (resultId ++ "_" ++ k)).2 with
    | error e =>
      dsimp only
      rw [export_ee_image_trace]
      show pollsAfterSubmits (List.replicate _ (ExpEvent.poll k)) (k :: seen) = true
      rw [← List.append_nil (List.replicate (pollLoop (taskState k)
        (resultId ++ "_" ++ k) maxPollCount 0).1 (ExpEvent.poll k))]
      rw [pollsAfterSubmits_replicate k _ [] (k :: seen) (by simp)]
      rfl
    | ok url =>
      dsimp only
      rw [export_ee_image_trace, List.cons_append]
      show pollsAfterSubmits (List.replicate _ (ExpEvent.poll k) ++
        (runExports taskState resultId bucketName rest).1) (k :: seen) = true
      rw [pollsAfterSubmits_replicate k _ _ (k :: seen) (by simp)]
      exact ih (k :: seen)

/-- C3 as stated is false: the export coordinator is strictly sequential.
With every task completing on its first status check, the first product
(`baseline_image`) is polled (trace index 1) before the second product
(`current_image`) is submitted (trace index 2). -/
theorem C3_counterexample :
    ((export_analysis_images_to_gcs (fun _ _ => TaskState.completed) "result-1"
      "area-1" "forest" "2026-08-31" "2026-09-30" "bucket-1").1)[1]? =
        some (ExpEvent.poll "baseline_image") ∧
    ((export_analysis_images_to_gcs (fun _ _ => TaskState.completed) "result-1"
      "area-1" "forest" "2026-08-31" "2026-09-30" "bucket-1").1)[2]? =
        some (ExpEvent.submit "current_image") := by
  constructor <;> rfl

/-- The export-loop trace decomposes into contiguous per-product blocks —
one submission followed by all of that product's polls — over a prefix of
the product list (processing stops at the first failing product). -/
theorem runExports_blocks (taskState : String → ℕ → TaskState)
    (resultId bucketName : String) (items : List (String × String)) :
    ∃ n, n ≤ items.length ∧
      (runExports taskState resultId bucketName items).1 =
        ((items.take n).map (fun kp => ExpEvent.submit kp.1 ::
          List.replicate (pollLoop (taskState kp.1) (resultId ++ "_" ++ kp.1)
            maxPollCount 0).1 (ExpEvent.poll kp.1))).flatten := by
  induction items with
  | nil => exact ⟨0, le_refl 0, rfl⟩
  | cons kv rest ih =>
    obtain ⟨k, path⟩ := kv
    unfold runExports
    dsimp only
    cases hr : (export_ee_image_to_gcs (taskState k) k bucketName path
        (resultId ++ "_" ++ k)).2 with
    | error e =>
      dsimp only
      refine ⟨1, by simp, ?_⟩
      rw [export_ee_image_trace]
      simp
    | ok url =>
      dsimp only
      obtain ⟨n, hn, htrace⟩ := ih
      refine ⟨n + 1, by simpa using hn, ?_⟩
      rw [export_ee_image_trace, htrace]
      simp [List.take_succ_cons, List.flatten_cons]

/-- C3 amended: the five export jobs are processed strictly sequentially,
not fan-out/fan-in. The whole trace is a concatenation of contiguous
per-product blocks, in the fixed product order: each block is one submission
followed by all of that product's status polls, so each product is polled to
its terminal state before the next product's export is submitted, and no
event of a product occurs outside its own block. Every poll is of an
already-submitted product, each block contains at least one poll, and hence
the first product is polled before the second is submitted in every run. -/
theorem C3_exports_sequential (taskState : String → ℕ → TaskState)
    (resultId areaId analysisType baselineDate currentDate bucketName : String) :
    pollsAfterSubmits (export_analysis_images_to_gcs taskState resultId areaId
      analysisType baselineDate currentDate bucketName).1 [] = true ∧
    (∃ n, n ≤ 5 ∧
      (export_analysis_images_to_gcs taskState resultId areaId analysisType
        baselineDate currentDate bucketName).1 =
        (((exportPaths areaId analysisType baselineDate currentDate
            resultId).take n).map (fun kp => ExpEvent.submit kp.1 ::
          List.replicate (pollLoop (taskState kp.1) (resultId ++ "_" ++ kp.1)
            maxPollCount 0).1 (ExpEvent.poll kp.1))).flatten) ∧
    (∀ (st : ℕ → TaskState) (description : String),
      1 ≤ (pollLoop st description maxPollCount 0).1) ∧
    (export_analysis_images_to_gcs taskState resultId areaId analysisType
      baselineDate currentDate bucketName).1.take 2 =
      [ExpEvent.submit "baseline_image", ExpEvent.poll "baseline_image"] := by
  refine ⟨runExports_pollsAfterSubmits taskState resultId bucketName _ [], ?_, ?_, ?_⟩
  · obtain ⟨n, hn, ht⟩ := runExports_blocks taskState resultId bucketName
      (exportPaths areaId analysisType baselineDate currentDate resultId)
    exact ⟨n, by simpa [exportPaths] using hn, ht⟩
  · intro st description
    exact pollLoop_pos st description maxPollCount 0 (by norm_num [maxPollCount])
  · unfold export_analysis_images_to_gcs exportPaths
    unfold runExports
    dsimp only
    obtain ⟨n, hn⟩ : ∃ n, (pollLoop (taskState "baseline_image")
        (resultId ++ "_" ++ "baseline_image") maxPollCount 0).1 = n + 1 := by
      have := pollLoop_pos (taskState "baseline_image")
        (resultId ++ "_" ++ "baseline_image") maxPollCount 0 (by norm_num [maxPollCount])
      exact ⟨(pollLoop (taskState "baseline_image")
        (resultId ++ "_" ++ "baseline_image") maxPollCount 0).1 - 1, by omega⟩
    cases hr : (export_ee_image_to_gcs (taskState "baseline_image") "baseline_image"
        bucketName (areaId ++ "/images/" ++ baselineDate ++ "_sentinel.tif")
        (resultId ++ "_" ++ "baseline_image")).2 with
    | error e =>
      dsimp only
      rw [export_ee_image_trace, hn]
      simp [List.replicate_succ]
    | ok url =>
      dsimp only
      rw [export_ee_image_trace, hn]
      simp [List.replicate_succ]

/-- C2: every run of `run_the_full_analysis` sends the callback exactly once
— also when any stage (Earth Engine init, fetch, change computation, export)
fails — and the delivered payload's status is `completed` or `failed`, never
the initial `unknown`; on failure the payload carries an error message naming
the cause. -/
theorem C2_callback_exactly_once (P : Type) (o : RunOracle P)
    (payload : AnalysisPayload) :
    (run_the_full_analysis P o payload).1.filter isSendEvent =
      [RunEvent.sendCallback (run_the_full_analysis P o payload).2] ∧
    ((run_the_full_analysis P o payload).2.status = "completed" ∨
      (run_the_full_analysis P o payload).2.status = "failed") ∧
    (run_the_full_analysis P o payload).2.status ≠ "unknown" ∧
    ((run_the_full_analysis P o payload).2.status = "failed" →
      ∃ e, (run_the_full_analysis P o payload).2.error_message =
        some ("Analysis error: " ++ e)) := by
  cases hinit : o.initOk with
  | false =>
    unfold run_the_full_analysis
    rw [hinit]
    exact ⟨rfl, Or.inr rfl, (by decide : ("failed" : String) ≠ "unknown"),
      fun _ => ⟨"Failed to initialise Earth Engine", rfl⟩⟩
  | true =>
    cases hf : fetch_sentinel2_images o.collectionCount
        (polygon_to_lnglat payload.polygon) payload.is_baseline o.now with
    | error e =>
      rw [run_fetch_error o payload hinit e hf]
      exact ⟨rfl, Or.inr rfl, (by decide : ("failed" : String) ≠ "unknown"),
        fun _ => ⟨e, rfl⟩⟩
    | ok f =>
      cases hc : compute_change_products P o.baselineImage o.currentImage
          payload.type f.baselineDate f.currentDate o.nums with
      | error e =>
        unfold run_the_full_analysis
        rw [hinit, hf]
        dsimp only
        rw [hc]
        exact ⟨rfl, Or.inr rfl, (by decide : ("failed" : String) ≠ "unknown"),
        fun _ => ⟨e, rfl⟩⟩
      | ok out =>
        cases he : (export_analysis_images_to_gcs o.taskState payload.result_id
            payload.area_id payload.type f.baselineDate f.currentDate
            o.bucketName).2 with
        | error e =>
          unfold run_the_full_analysis
          rw [hinit, hf]
          dsimp only
          rw [hc]
          dsimp only
          rw [he]
          exact ⟨rfl, Or.inr rfl, (by decide : ("failed" : String) ≠ "unknown"),
        fun _ => ⟨e, rfl⟩⟩
        | ok urls =>
          unfold run_the_full_analysis
          rw [hinit, hf]
          dsimp only
          rw [hc]
          dsimp only
          rw [he]
          exact ⟨rfl, Or.inl rfl, (by decide : ("completed" : String) ≠ "unknown"),
            fun habs => absurd habs (by decide : ¬ ("completed" : String) = "failed")⟩

/-- Witness for C2 at a failing initialisation: the callback is sent once
with a `failed` payload carrying an error message. -/
theorem C2_callback_exactly_once_witness :
    (run_the_full_analysis Unit cFailOracle cPayload).1.filter isSendEvent =
      [RunEvent.sendCallback (run_the_full_analysis Unit cFailOracle cPayload).2] ∧
    (∃ e, (run_the_full_analysis Unit cFailOracle cPayload).2.error_message =
      some ("Analysis error: " ++ e)) :=
  ⟨(C2_callback_exactly_once Unit cFailOracle cPayload).1,
   (C2_callback_exactly_once Unit cFailOracle cPayload).2.2.2 rfl⟩

/-- C7: when the baseline window yields zero source images (and the current
window does not), the fetch stage fails instead of producing composites, the
fetch is invoked exactly once (no local retry), and the final callback — sent
exactly once — reports status `failed` with an error message containing the
baseline window's start and end dates. -/
theorem C7_empty_window_fails_job (P : Type) (o : RunOracle P)
    (payload : AnalysisPayload)
    (hinit : o.initOk = true) (hpoly : payload.polygon ≠ [])
    (hcur : o.collectionCount (analysisWindows o.now).2 ≠ 0)
    (hbase : o.collectionCount (analysisWindows o.now).1 = 0) :
    (∃ e, fetch_sentinel2_images o.collectionCount
        (polygon_to_lnglat payload.polygon) payload.is_baseline o.now =
          Except.error e ∧
      containsStr e (formatDate (analysisWindows o.now).1.1) ∧
      containsStr e (formatDate (analysisWindows o.now).1.2)) ∧
    (run_the_full_analysis P o payload).2.status = "failed" ∧
    containsStr ((run_the_full_analysis P o payload).2.error_message.getD "")
      (formatDate (analysisWindows o.now).1.1) ∧
    containsStr ((run_the_full_analysis P o payload).2.error_message.getD "")
      (formatDate (analysisWindows o.now).1.2) ∧
    (run_the_full_analysis P o payload).1.filter isFetchEvent =
      [RunEvent.fetchImagery] ∧
    (run_the_full_analysis P o payload).1.filter isSendEvent =
      [RunEvent.sendCallback (run_the_full_analysis P o payload).2] := by
  have hf := fetch_no_baseline_imagery o.collectionCount
    (polygon_to_lnglat payload.polygon) payload.is_baseline o.now
    (by rw [polygon_to_lnglat_id]; exact hpoly) hcur hbase
  have hmsg1 : containsStr ("No Sentinel-2 data available for baseline period (" ++
      formatDate (analysisWindows o.now).1.1 ++ " to " ++
      formatDate (analysisWindows o.now).1.2 ++ ")")
      (formatDate (analysisWindows o.now).1.1) :=
    containsStr_seg2 _ _ _ _ _
  have hmsg2 : containsStr ("No Sentinel-2 data available for baseline period (" ++
      formatDate (analysisWindows o.now).1.1 ++ " to " ++
      formatDate (analysisWindows o.now).1.2 ++ ")")
      (formatDate (analysisWindows o.now).1.2) :=
    containsStr_seg4 _ _ _ _ _
  rw [run_fetch_error o payload hinit _ hf]
  refine ⟨⟨_, hf, hmsg1, hmsg2⟩, rfl, ?_, ?_, rfl, rfl⟩
  · exact containsStr_prepend "Analysis error: " _ _ hmsg1
  · exact containsStr_prepend "Analysis error: " _ _ hmsg2

/-- Witness for C7 at a concrete empty baseline window (August 2026, with
the clock at 2026-10-12): the job fails and the message names 2026-08-01 and
2026-08-31. -/
theorem C7_empty_window_fails_job_witness :
    (run_the_full_analysis Unit cNoBaselineOracle cPayload).2.status = "failed" ∧
    containsStr ((run_the_full_analysis Unit cNoBaselineOracle cPayload).2.error_message.getD "")
      (formatDate ⟨2026, 8, 1⟩) ∧
    containsStr ((run_the_full_analysis Unit cNoBaselineOracle cPayload).2.error_message.getD "")
      (formatDate ⟨2026, 8, 31⟩) :=
  ⟨(C7_empty_window_fails_job Unit cNoBaselineOracle cPayload rfl (by simp [cPayload])
      (by decide) (by decide)).2.1,
   (C7_empty_window_fails_job Unit cNoBaselineOracle cPayload rfl (by simp [cPayload])
      (by decide) (by decide)).2.2.1,
   (C7_empty_window_fails_job Unit cNoBaselineOracle cPayload rfl (by simp [cPayload])
      (by decide) (by decide)).2.2.2.1⟩

/-- C9: `_build_geometry` errors exactly on an empty vertex list; a non-empty
list already closed (first vertex equals last) is returned unchanged,
otherwise the first vertex is appended, and the resulting ring always starts
and ends with the same vertex. -/
theorem C9_build_geometry_closes_ring (polygon : List Vertex) :
    ((∃ e, build_geometry polygon = Except.error e) ↔ polygon = []) ∧
    (∀ v vs, polygon = v :: vs →
      (polygon.getLast? = some v → build_geometry polygon = Except.ok polygon) ∧
      (polygon.getLast? ≠ some v → build_geometry polygon = Except.ok (polygon ++ [v])) ∧
      (∀ ring, build_geometry polygon = Except.ok ring →
        ring.head? = some v ∧ ring.getLast? = some v)) := by
  cases polygon with
  | nil =>
    refine ⟨⟨fun _ => rfl, fun _ => ⟨_, rfl⟩⟩, ?_⟩
    intro v vs h
    exact absurd h (by simp)
  | cons v vs =>
    refine ⟨⟨?_, ?_⟩, ?_⟩
    · intro ⟨e, he⟩
      by_cases hlast : (v :: vs).getLast? = some v <;>
        simp [build_geometry, hlast] at he
    · intro h
      exact absurd h (by simp)
    · intro v₀ vs₀ h
      injection h with h₁ h₂
      subst h₁
      subst h₂
      refine ⟨?_, ?_, ?_⟩
      · intro hlast
        simp [build_geometry, hlast]
      · intro hlast
        simp [build_geometry, hlast]
      · intro ring hring
        by_cases hlast : (v :: vs).getLast? = some v <;>
          simp [build_geometry, hlast] at hring
        · subst hring
          exact ⟨rfl, hlast⟩
        · subst hring
          refine ⟨rfl, ?_⟩
          rw [← List.cons_append]
          exact List.getLast?_concat _

/-- Witness for C9 at a concrete open triangle: the ring is closed by
appending the first vertex. -/
theorem C9_build_geometry_closes_ring_witness :
    build_geometry [[0, 0], [1, 0], [1, 1]] =
      Except.ok [[0, 0], [1, 0], [1, 1], [0, 0]] :=
  ((C9_build_geometry_closes_ring [[0, 0], [1, 0], [1, 1]]).2
    [0, 0] [[1, 0], [1, 1]] rfl).2.1 (by simp)

/-- C10: the fetch stage is insensitive to its classification-type argument
(into which the caller in `main.py` actually passes the `is_baseline` flag):
two requests over the same polygon at the same clock obtain identical window
boundaries and representative date strings; moreover the windows depend only
on the calendar month of the clock, not on its day. -/
theorem C10_windows_deterministic (α β : Type)
    (collectionCount : UtcDate × UtcDate → ℕ) (polygon : List Vertex)
    (c₁ : α) (c₂ : β) (now : UtcDate) :
    fetch_sentinel2_images collectionCount polygon c₁ now =
      fetch_sentinel2_images collectionCount polygon c₂ now ∧
    (∀ y m d₁ d₂ : ℕ,
      analysisWindows ⟨y, m, d₁⟩ = analysisWindows ⟨y, m, d₂⟩) :=
  ⟨rfl, fun _ _ _ _ => rfl⟩

/-- C8: the classifier errors exactly on a type other than `forest` or
`water`; `forest` thresholds the NDVI band against the fixed constant
`FOREST_NDVI_THRESHOLD` and `water` thresholds the MNDWI band against
`WATER_MNDWI_THRESHOLD`; the NDVI band is the normalized difference of bands
B8 and B4. -/
theorem C8_classifier_dispatch (P : Type) (image : IndexedImage P) (t : String) :
    ((∃ e, create_classification_mask image t = Except.error e) ↔
      t ≠ "forest" ∧ t ≠ "water") ∧
    create_classification_mask image "forest" =
      Except.ok (fun p => (image.ndvi p).map (fun v => decide (v > FOREST_NDVI_THRESHOLD))) ∧
    create_classification_mask image "water" =
      Except.ok (fun p => (image.mndwi p).map (fun v => decide (v > WATER_MNDWI_THRESHOLD))) ∧
    (∀ (c : Composite P) (p : P) (x y : ℚ), c.b8 p = some x → c.b4 p = some y →
      (add_indices c).ndvi p = some ((x - y) / (x + y))) := by
  refine ⟨?_, ?_, ?_, ?_⟩
  · constructor
    · intro ⟨e, he⟩
      unfold create_classification_mask at he
      split at he <;> [simp_all; skip]
      split at he <;> simp_all
    · intro ⟨h₁, h₂⟩
      refine ⟨"Unsupported classification type: " ++ t, ?_⟩
      unfold create_classification_mask
      simp [h₁, h₂]
  · unfold create_classification_mask
    simp
  · unfold create_classification_mask
    simp
  · intro c p x y hx hy
    unfold add_indices normalizedDifference
    simp [hx, hy]

/-- Witness for C8: the type `urban` is rejected, and the forest mask at a
concrete NDVI value thresholds against the fixed constant. -/
theorem C8_classifier_dispatch_witness :
    (∃ e, create_classification_mask
      (IndexedImage.mk (P := Unit) (fun _ => some (1 / 2)) (fun _ => some 0)) "urban" =
        Except.error e) :=
  (C8_classifier_dispatch Unit
    (IndexedImage.mk (fun _ => some (1 / 2)) (fun _ => some 0)) "urban").1.mpr
    (by refine ⟨?_, ?_⟩ <;> decide)

end GeoWatch
